import Mathlib

/-!
Verification development for the competitor-analysis backend.

This file shallowly embeds the analysis orchestration pipeline of
`app/services/analysis_runner.py` (with its twin in
`app/tasks/analysis_tasks.py`) together with the pieces of
`app/services/asknews_service.py` that the orchestrator depends on.

Modelling conventions:
- Timestamps (`datetime.utcnow()` values and `published_date` columns) are
  integers measured in days, and a day count in the parameter bag is an
  integer (the claims only involve integral day counts); `timedelta(days=d)`
  is subtraction of `d`.  A single clock value `Env.now` stands for every
  `utcnow()` call made during one `execute` invocation (the code calls
  `utcnow()` several times in quick succession; none of the claims depends
  on the drift between those calls).
- Python floats are modelled as rationals.
- A Python value that may be absent or `None` is an `Option`.
- Database rows live in lists inside a `DB` record; `session.add` is list
  append, a committed step is a function `DB → DB`, and a step that can
  raise is `DB → Except Err DB`.  The orchestrator's
  `try: step; commit except: rollback` pattern keeps the old `DB` on
  `Except.error`.
- External collaborators (the AskNews adapter, the LLM provider and the
  `json.loads` library routine) are fields of an `Env` record; the code
  under `src/` is embedded concretely against that environment.
-/

/-- Timestamps, in days. -/
abbrev Time := ℤ

/-- A value stored in a run's free-form JSON parameter bag. -/
inductive PVal
  | num (n : ℤ)
  | str (s : String)
  | nullv
deriving DecidableEq, Repr

/-- A JSON value, as produced by `json.loads` on a provider response. -/
inductive Json
  | null
  | bool (b : Bool)
  | num (q : ℚ)
  | str (s : String)
  | arr (xs : List Json)
  | obj (fields : List (String × Json))

/-- Step-level exception classes that the embedded code can raise. -/
inductive Err
  | typeError
  | attributeError
deriving DecidableEq, Repr

/-- `competitors` table row (the columns the pipeline reads). -/
structure Competitor where
  id : Nat
  name : String
  website_url : Option String
deriving DecidableEq, Repr

/-- `analysis_runs` table row (the columns the pipeline reads/writes). -/
structure RunRec where
  id : Nat
  status : String
  parameters : Option (List (String × PVal))
  started_at : Option Time
  completed_at : Option Time
deriving DecidableEq, Repr

/-- `news_mentions` table row (model `NewsMention`). -/
structure Mention where
  competitor_id : Nat
  analysis_run_id : Nat
  title : String
  url : Option String
  source : Option String
  published_date : Option Time
  content : Option String
  sentiment_score : Option ℚ
deriving DecidableEq, Repr

/-- `market_presence` table row (model `MarketPresence`, the spec's
PresenceSummary). -/
structure Presence where
  competitor_id : Nat
  analysis_run_id : Nat
  mention_count : Nat
  sentiment_average : Option ℚ
  visibility_score : ℚ
  trend_direction : String
  period_start : Time
  period_end : Time
deriving DecidableEq, Repr

/-- `web_content` table row (model `WebContent`, the spec's ContentPage). -/
structure WebPage where
  competitor_id : Nat
  analysis_run_id : Nat
  page_type : String
  content : Json

/-- `insights` table row (model `Insight`); fields hold the JSON values
taken from the parsed provider response, `Json.null` standing for a
missing/None value exactly as `dict.get` yields it. -/
structure InsightRow where
  analysis_run_id : Nat
  insight_type : Json
  category : Json
  title : Json
  description : Json
  priority : Json
  actionable_recommendation : Json
  supporting_data : Json

/-- `differentiation_opportunities` table row. -/
structure OppRow where
  analysis_run_id : Nat
  opportunity_type : Json
  title : Json
  description : Json
  competitors_affected : Json
  impact_score : Json

/-- The relational state the pipeline reads and writes.  `links` holds
`analysis_competitors` join rows as `(analysis_run_id, competitor_id)`. -/
structure DB where
  runs : List RunRec
  competitors : List Competitor
  links : List (Nat × Nat)
  mentions : List Mention
  presences : List Presence
  webpages : List WebPage
  insights : List InsightRow
  opportunities : List OppRow

/-- A normalized article as handed back by
`AskNewsService.search_competitor_news`: the dictionary keys that
`collect_competitor_news` probes.  `published_date`-like fields are already
timestamps (the string-parsing fallback of the source discards unparsable
dates to `none`; claims never exercise it) and `sentiment_score` is already
numeric-or-null (the `float()` conversion is the identity there). -/
structure Article where
  title : Option String
  headline : Option String
  url : Option String
  link : Option String
  source : Option String
  published_date : Option Time
  date : Option Time
  publishedAt : Option Time
  content : Option String
  description : Option String
  summary : Option String
  sentiment_score : Option ℚ
deriving DecidableEq, Repr

/-- Result of `AskNewsService.get_web_content(url)`: the keys of the dict
it returns.  A `none` field models an absent key / Python `None`. -/
structure WebData where
  url : String
  content : Option Json
  raw : Option Json
  error : Option String

/-- The external collaborators of one `execute` invocation: the clock, the
AskNews adapter (which never raises, per `asknews_service.py`'s blanket
`except` clauses), the generative-text provider's response for this run
(`_call_llm_sync` never raises: every provider error collapses to `"{}"`),
and the `json.loads` library function. -/
structure Env where
  now : Time
  searchNews : String → PVal → List Article
  getWebContent : String → WebData
  llmResponse : String
  loads : String → Option Json

/-- Helper for `py_split`: leftmost non-overlapping split on `sep`,
structurally recursive on an explicit fuel (always called with more fuel
than characters, so the fuel-exhausted branch is unreachable). -/
def py_split_aux (sep : List Char) : Nat → List Char → List Char → List (List Char)
  | _, [], acc => [acc.reverse]
  | 0, l, acc => [acc.reverse ++ l]
  | fuel + 1, c :: rest, acc =>
    if sep.isPrefixOf (c :: rest) then
      acc.reverse :: py_split_aux sep fuel (List.drop sep.length (c :: rest)) []
    else
      py_split_aux sep fuel rest (c :: acc)

/-- Python `s.split(sep)` for a non-empty separator. -/
def py_split (s sep : String) : List String :=
  if sep.data.isEmpty then [s]
  else (py_split_aux sep.data (s.data.length + 1) s.data []).map String.mk

/-- Python `s.strip()`: remove leading and trailing whitespace. -/
def py_strip (s : String) : String :=
  String.mk (((s.data.dropWhile Char.isWhitespace).reverse.dropWhile
    Char.isWhitespace).reverse)

/-- Python `s.startswith(pre)`. -/
def py_startswith (s pre : String) : Bool :=
  pre.data.isPrefixOf s.data

/-- Python `s[n:]`. -/
def py_drop (s : String) (n : Nat) : String :=
  String.mk (s.data.drop n)

/-- Python `s.rstrip(c)` for a single strip character. -/
def py_rstrip (s : String) (c : Char) : String :=
  String.mk ((s.data.reverse.dropWhile (fun x => x == c)).reverse)

/-- Python `a or b` on two optional strings (`""` and `None` are falsy;
the second operand is returned as-is when the first is falsy). -/
def pyOrS (a b : Option String) : Option String :=
  match a with
  | some s => if s = "" then b else some s
  | none => b

/-- Python `a or b` where the right operand is a plain string. -/
def pyOrStr (a : Option String) (b : String) : String :=
  match a with
  | some s => if s = "" then b else s
  | none => b

/-- `timedelta(days=v)`: accepts a number, raises `TypeError` otherwise. -/
def timedelta_days : PVal → Except Err ℤ
  | .num n => .ok n
  | .str _ => .error .typeError
  | .nullv => .error .typeError

/-- `(run.parameters or {}).get("days_back", 30)` — line 25 of
`analysis_runner.py`.  The stored value is returned verbatim whenever the
key is present. -/
def get_days_back (params : Option (List (String × PVal))) : PVal :=
  match params with
  | none => .num 30
  | some l => (l.lookup ("days_back")).getD (.num 30)

/-- `c.name if c else "Unknown"` over the competitors table. -/
def get_company_name (db : DB) (competitor_id : Nat) : String :=
  match db.competitors.find? (fun c => c.id == competitor_id) with
  | some c => c.name
  | none => "Unknown"

/-- Normalization of one article into a `NewsMention` row, as in
`_SyncNewsService.collect_competitor_news` (the trailing
`title=title or company_name` of the constructor call is absorbed by the
first `or company_name`, since the chain already ends in `company_name`). -/
def normalize_article (company_name : String) (competitor_id analysis_run_id : Nat)
    (art : Article) : Mention :=
  { competitor_id := competitor_id
    analysis_run_id := analysis_run_id
    title := pyOrStr (pyOrS art.title art.headline) company_name
    url := pyOrS art.url art.link
    source := art.source
    published_date := (art.published_date <|> art.date) <|> art.publishedAt
    content := pyOrS (pyOrS art.content art.description) art.summary
    sentiment_score := art.sentiment_score }

/-- `_SyncNewsService.collect_competitor_news`: fetch articles from the
adapter and append one normalized `NewsMention` per article. -/
def collect_competitor_news (env : Env) (competitor_id analysis_run_id : Nat)
    (company_name : String) (days_back : PVal) (db : DB) : DB :=
  let articles := env.searchNews company_name days_back
  { db with
      mentions :=
        db.mentions ++
          articles.map (normalize_article company_name competitor_id analysis_run_id) }

/-- The SQL filter of `calculate_market_presence`: competitor and run
match and `period_start <= published_date <= period_end`; a NULL
`published_date` fails both comparisons. -/
def in_window (period_start period_end : Time) (competitor_id analysis_run_id : Nat)
    (m : Mention) : Bool :=
  m.competitor_id == competitor_id && m.analysis_run_id == analysis_run_id &&
    (match m.published_date with
     | some d => decide (period_start ≤ d) && decide (d ≤ period_end)
     | none => false)

/-- `min(100.0, mention_count * 2.0)`. -/
def visibility_of (n : Nat) : ℚ := min 100 (n * 2)

/-- `"rising" if n >= 5 else "stable" if n >= 2 else "declining"`. -/
def trend_of (n : Nat) : String :=
  if n ≥ 5 then "rising" else if n ≥ 2 then "stable" else "declining"

/-- The `MarketPresence` row `calculate_market_presence` derives from the
in-window mention subset: the non-null sentiment mean, the count, the
capped visibility and the trend label. -/
def mk_presence_row (competitor_id analysis_run_id : Nat) (mentions : List Mention)
    (period_start period_end : Time) : Presence :=
  let scores := mentions.filterMap (fun m => m.sentiment_score)
  let sentiment_avg : Option ℚ :=
    if scores.length == 0 then none else some (scores.sum / scores.length)
  let mention_count := mentions.length
  { competitor_id := competitor_id
    analysis_run_id := analysis_run_id
    mention_count := mention_count
    sentiment_average := sentiment_avg
    visibility_score := visibility_of mention_count
    trend_direction := trend_of mention_count
    period_start := period_start
    period_end := period_end }

/-- `_SyncNewsService.calculate_market_presence`: aggregate the in-window
mentions of (competitor, run); store nothing when the subset is empty,
otherwise append one `MarketPresence` row.  Raises `TypeError` when
`days_back` is not a number (from `timedelta(days=days_back)`). -/
def calculate_market_presence (env : Env) (competitor_id analysis_run_id : Nat)
    (days_back : PVal) (db : DB) : Except Err DB :=
  let period_end := env.now
  match timedelta_days days_back with
  | .error e => .error e
  | .ok days =>
    let period_start := period_end - days
    let mentions :=
      db.mentions.filter (in_window period_start period_end competitor_id analysis_run_id)
    if mentions.isEmpty then
      .ok db
    else
      .ok { db with
        presences := db.presences ++
          [mk_presence_row competitor_id analysis_run_id mentions period_start period_end] }

/-- Python truthiness of an optional JSON value (`None`, `null`, `False`,
`0`, `""`, `[]`, `{}` are falsy). -/
def py_truthy : Option Json → Bool
  | none => false
  | some .null => false
  | some (.bool b) => b
  | some (.num q) => !(q == 0)
  | some (.str s) => !(s == "")
  | some (.arr xs) => !xs.isEmpty
  | some (.obj fs) => !fs.isEmpty

/-- `str()` of a scalar payload.  `extract_website_content` only reaches
`str(content)` when `content` is truthy and neither a dict nor a list, so
only the scalar cases matter; the remaining cases are unreachable under
that guard. -/
def py_str_scalar : Option Json → String
  | some (.str s) => s
  | some (.num q) => toString q
  | some (.bool b) => if b then "True" else "False"
  | some .null => "None"
  | none => "None"
  | some (.arr _) => ""
  | some (.obj _) => ""

/-- `_SyncWebExtraction.PAGE_TYPES`. -/
def PAGE_TYPES : List String := ["homepage", "pricing", "about", "features"]

/-- `website_url.rstrip("/") + ("/" if page_type == "homepage" else f"/{page_type}")`. -/
def page_url (website_url page_type : String) : String :=
  (py_rstrip website_url '/') ++
    (if page_type == "homepage" then "/" else "/" ++ page_type)

/-- One loop body of `extract_website_content`: fetch the page, pick
`data.get("content") or data.get("raw")`, and build the stored payload. -/
def web_page_row (env : Env) (competitor_id analysis_run_id : Nat)
    (website_url page_type : String) : WebPage :=
  let url := page_url website_url page_type
  let data := env.getWebContent url
  let content := if py_truthy data.content then data.content else data.raw
  let payload : Json :=
    match content with
    | some (.obj fs) => .obj fs
    | some (.arr xs) => .obj [("data", .arr xs)]
    | c => .obj [("text", .str (if py_truthy c then py_str_scalar c else (""))),
                 ("url", .str url)]
  { competitor_id := competitor_id
    analysis_run_id := analysis_run_id
    page_type := page_type
    content := payload }

/-- `_SyncWebExtraction.extract_website_content`: one `WebContent` row per
fixed page type. -/
def extract_website_content (env : Env) (competitor_id analysis_run_id : Nat)
    (website_url : String) (db : DB) : DB :=
  { db with
      webpages := db.webpages ++
        PAGE_TYPES.map (web_page_row env competitor_id analysis_run_id website_url) }

/-- The code-fence stripping of `generate_differentiation_insights`:
`if "```" in raw: raw = raw.split("```")[1]; if raw.strip().startswith("json"):
raw = raw.strip()[4:]`. -/
def strip_code_fence (raw : String) : String :=
  let parts := py_split raw ("```")
  if parts.length > 1 then
    let raw := (parts.get? 1).getD ("")
    if py_startswith (py_strip raw) ("json") then py_drop (py_strip raw) 4 else raw
  else raw

/-- `fields.get(k)` on a parsed JSON object. -/
def jget (fields : List (String × Json)) (k : String) : Option Json :=
  (fields.find? (fun p => p.1 == k)).map (fun p => p.2)

/-- `for i in (v or []):` — Python iteration over `v or []`.  A falsy `v`
iterates the empty list; an array iterates its elements; a non-empty
string iterates its characters; a non-empty dict iterates its keys; a
number or `True` raises `TypeError` (not iterable). -/
def py_or_iter (v : Option Json) : Except Err (List Json) :=
  if py_truthy v then
    match v with
    | some (.arr xs) => .ok xs
    | some (.str s) => .ok (s.toList.map (fun c => Json.str (String.singleton c)))
    | some (.obj fs) => .ok (fs.map (fun p => Json.str p.1))
    | _ => .error .typeError
  else
    .ok []

/-- One `Insight(...)` constructor call: `i.get(...)` raises
`AttributeError` unless `i` is a dict; a key present with value `null`
yields `null`, a missing key yields the `dict.get` default. -/
def mk_insight (analysis_run_id : Nat) (i : Json) : Except Err InsightRow :=
  match i with
  | .obj fs =>
      .ok { analysis_run_id := analysis_run_id
            insight_type := (jget fs ("insight_type")).getD (.str ("market_timing"))
            category := (jget fs ("category")).getD .null
            title := (jget fs ("title")).getD (.str ("Insight"))
            description := (jget fs ("description")).getD .null
            priority := (jget fs ("priority")).getD .null
            actionable_recommendation := (jget fs ("actionable_recommendation")).getD .null
            supporting_data := (jget fs ("supporting_data")).getD .null }
  | _ => .error .attributeError

/-- One `DifferentiationOpportunity(...)` constructor call. -/
def mk_opportunity (analysis_run_id : Nat) (o : Json) : Except Err OppRow :=
  match o with
  | .obj fs =>
      .ok { analysis_run_id := analysis_run_id
            opportunity_type := (jget fs ("opportunity_type")).getD .null
            title := (jget fs ("title")).getD (.str ("Opportunity"))
            description := (jget fs ("description")).getD .null
            competitors_affected := (jget fs ("competitors_affected")).getD .null
            impact_score := (jget fs ("impact_score")).getD .null }
  | _ => .error .attributeError

/-- `_SyncInsightsGenerator.generate_differentiation_insights`: load the
run and its competitors (returning silently when either is missing/empty),
build the context prompt for the provider (the serialized, 25,000-character
truncated context only feeds `Env.llmResponse` and is not otherwise
observable), strip an optional code fence from the response, parse it with
`json.loads` (only `JSONDecodeError` is caught: a parse failure returns
with nothing stored), and append one row per element of the two arrays. -/
def generate_differentiation_insights (env : Env) (analysis_run_id : Nat)
    (db : DB) : Except Err DB :=
  match db.runs.find? (fun r => r.id == analysis_run_id) with
  | none => .ok db
  | some _ =>
  let links := db.links.filter (fun l => l.1 == analysis_run_id)
  let competitors := links.filterMap (fun l => db.competitors.find? (fun c => c.id == l.2))
  if competitors.isEmpty then
    .ok db
  else
    let raw := env.llmResponse
    let raw := strip_code_fence raw
    match env.loads (py_strip raw) with
    | none => .ok db
    | some data =>
    match data with
    | .obj dataFields =>
      (match py_or_iter (jget dataFields ("insights")) with
       | .error e => .error e
       | .ok insItems =>
       match insItems.mapM (mk_insight analysis_run_id) with
       | .error e => .error e
       | .ok newInsights =>
       match py_or_iter (jget dataFields ("differentiation_opportunities")) with
       | .error e => .error e
       | .ok oppItems =>
       match oppItems.mapM (mk_opportunity analysis_run_id) with
       | .error e => .error e
       | .ok newOpps =>
         .ok { db with
           insights := db.insights ++ newInsights
           opportunities := db.opportunities ++ newOpps })
    | _ => .error Err.attributeError

/-- Outcome value of `run_full_analysis_sync` (the returned dict's
interesting part: not-found error, `"completed"`, or `"failed"`). -/
inductive RunOutcome
  | notFound
  | completed
  | failed
deriving DecidableEq, Repr

/-- The four step entry points the orchestrator drives, each a database
transformation that may raise.  `run_full_analysis_sync` is embedded
generically over them (any Python call can raise for reasons outside the
pure model, e.g. a database fault); `concrete_steps` instantiates them
with the step bodies embedded from the source. -/
structure StepEnv where
  collect : Nat → Nat → PVal → DB → Except Err DB
  extract : Nat → Nat → DB → Except Err DB
  presence : Nat → Nat → PVal → DB → Except Err DB
  synth : Nat → DB → Except Err DB

/-- `try: step(...); session.commit() except Exception: session.rollback()`:
keep the step's state on success, the pre-step state on an exception. -/
def try_step (db : DB) (r : Except Err DB) : DB :=
  match r with
  | .ok db' => db'
  | .error _ => db

/-- Update the run row with the given id (a no-op when absent, like
`run = session.get(...); if run: ...`). -/
def set_run (db : DB) (analysis_run_id : Nat) (f : RunRec → RunRec) : DB :=
  { db with runs := db.runs.map (fun r => if r.id == analysis_run_id then f r else r) }

/-- The per-competitor body of the orchestrator loop: the three guarded
steps in their fixed order, each failure contained. -/
def process_competitor (senv : StepEnv) (analysis_run_id : Nat) (days_back : PVal)
    (db : DB) (competitor_id : Nat) : DB :=
  let db := try_step db (senv.collect competitor_id analysis_run_id days_back db)
  let db := try_step db (senv.extract competitor_id analysis_run_id db)
  try_step db (senv.presence competitor_id analysis_run_id days_back db)

/-- `run_full_analysis_sync` of `app/services/analysis_runner.py`: load
the run (error result when absent), stamp `in_progress`/`started_at`,
resolve `days_back`, loop the linked competitors through the three
contained steps, run contained insight synthesis, then stamp
`completed`/`completed_at`.  The `failed` branch of the source is the
top-level `except` around the driver itself; in the pure embedding the
driver cannot raise, so the returned outcome is `completed` whenever the
run exists. -/
def run_full_analysis_sync (senv : StepEnv) (now : Time) (analysis_run_id : Nat)
    (db : DB) : DB × RunOutcome :=
  match db.runs.find? (fun r => r.id == analysis_run_id) with
  | none => (db, .notFound)
  | some run =>
    let db := set_run db analysis_run_id
      (fun r => { r with status := "in_progress", started_at := some now })
    let days_back := get_days_back run.parameters
    let comp_ids := (db.links.filter (fun l => l.1 == analysis_run_id)).map (fun l => l.2)
    let db := comp_ids.foldl (process_competitor senv analysis_run_id days_back) db
    let db := try_step db (senv.synth analysis_run_id db)
    let db := set_run db analysis_run_id
      (fun r => { r with status := "completed", completed_at := some now })
    (db, .completed)

/-- The concrete step bodies, embedded from the source:
`_collect_news_and_presence` (which collects news and then already
computes market presence), `_extract_website` (silently skipped without a
website URL), `_calculate_market_presence`, and `_generate_insights`. -/
def concrete_steps (env : Env) : StepEnv where
  collect := fun competitor_id analysis_run_id days_back db =>
    let name := get_company_name db competitor_id
    let db := collect_competitor_news env competitor_id analysis_run_id name days_back db
    calculate_market_presence env competitor_id analysis_run_id days_back db
  extract := fun competitor_id analysis_run_id db =>
    match db.competitors.find? (fun c => c.id == competitor_id) with
    | none => .ok db
    | some c =>
      match c.website_url with
      | none => .ok db
      | some u =>
        if u == "" then .ok db
        else .ok (extract_website_content env competitor_id analysis_run_id u db)
  presence := fun competitor_id analysis_run_id days_back db =>
    calculate_market_presence env competitor_id analysis_run_id days_back db
  synth := fun analysis_run_id db => generate_differentiation_insights env analysis_run_id db

/-- `execute(run_id)`: `run_full_analysis_sync` with the concrete step
bodies over the external environment. -/
def execute (env : Env) (analysis_run_id : Nat) (db : DB) : DB × RunOutcome :=
  run_full_analysis_sync (concrete_steps env) env.now analysis_run_id db

/-! Concrete fixtures used by the closed theorems below. -/

/-- An article dict with every probed key absent. -/
def blankArticle : Article :=
  { title := none, headline := none, url := none, link := none, source := none,
    published_date := none, date := none, publishedAt := none,
    content := none, description := none, summary := none, sentiment_score := none }

/-- An adapter whose page fetches always fail: `get_web_content`'s
`except` branch returns `{"url": url, "content": "", "error": ...}`. -/
def failWeb (u : String) : WebData :=
  { url := u, content := some (.str ""), raw := none, error := some ("unavailable") }

/-- `json.loads` restricted to the single response `"{}"` (the string
`_call_llm_sync` returns whenever no provider is configured or reachable). -/
def loadsEmptyObj (s : String) : Option Json :=
  if s == ("\x7b\x7d") then some (.obj []) else none

/-- A pending run with `days_back = 7`. -/
def baseRun : RunRec :=
  { id := 1, status := "pending", parameters := some [("days_back", .num 7)],
    started_at := none, completed_at := none }

def compA : Competitor := { id := 1, name := "A", website_url := none }

def compB : Competitor := { id := 2, name := "B", website_url := none }

/-- A database holding one pending run linked to competitors A and B. -/
def db0 : DB :=
  { runs := [baseRun], competitors := [compA, compB], links := [(1, 1), (1, 2)],
    mentions := [], presences := [], webpages := [], insights := [], opportunities := [] }

/-- The three in-window articles of the end-to-end scenario: sentiments
0.8, 1.0 and null. -/
def articlesA : List Article :=
  [{ blankArticle with title := some ("a1"), published_date := some 999,
                       sentiment_score := some (4/5) },
   { blankArticle with title := some ("a2"), published_date := some 998,
                       sentiment_score := some 1 },
   { blankArticle with title := some ("a3"), published_date := some 997 }]

/-- Environment of the end-to-end scenario: clock at day 1000, three
articles for A, none for B, failing web fetches, no usable provider. -/
def env_c2 : Env :=
  { now := 1000
    searchNews := fun name _ => if name == "A" then articlesA else []
    getWebContent := failWeb
    llmResponse := ("\x7b\x7d")
    loads := loadsEmptyObj }

/-- State after the collect-news step (which also computes presence) for
competitor A. -/
def c2_dbA : DB := try_step db0 ((concrete_steps env_c2).collect 1 1 (.num 7) db0)

/-- State after the collect-news step for competitor B as well. -/
def c2_dbB : DB := try_step c2_dbA ((concrete_steps env_c2).collect 2 1 (.num 7) c2_dbA)

/-- The row the scenario actually stores for A. -/
def c2_rowA : Presence :=
  { competitor_id := 1, analysis_run_id := 1, mention_count := 3,
    sentiment_average := some (9/10), visibility_score := 6,
    trend_direction := "stable", period_start := 993, period_end := 1000 }

/-- Environment with a single in-window article for A and nothing else. -/
def env_c3 : Env :=
  { env_c2 with
      searchNews := fun name _ =>
        if name == "A" then [{ blankArticle with published_date := some 999 }] else [] }

def c3_res : DB × RunOutcome := execute env_c3 1 db0

/-- The parsed form of `c1_resp`. -/
def c1_json : Json :=
  .obj [("insights", .arr [.obj []]), ("differentiation_opportunities", .arr [])]

/-- A provider response that parses to one (empty-object) insight. -/
def c1_resp : String := ("\x7b\"insights\": [\x7b\x7d], \"differentiation_opportunities\": []\x7d")

/-- Environment where the Source Adapter always returns empty lists but
the generative-text provider returns `c1_resp`; `loads` behaves as
`json.loads` does on that string. -/
def env_c1 : Env :=
  { now := 1000
    searchNews := fun _ _ => []
    getWebContent := failWeb
    llmResponse := c1_resp
    loads := fun s => if s == c1_resp then some c1_json else none }

def c1_res : DB × RunOutcome := execute env_c1 1 db0

/-- A run already in the terminal `completed` state, stamped at day 0. -/
def run_c4 : RunRec :=
  { id := 1, status := "completed", parameters := none,
    started_at := some 0, completed_at := some 0 }

def db_c4 : DB := { db0 with runs := [run_c4] }

/-- A later invocation's environment: the clock has moved to day 5. -/
def env_c4 : Env := { env_c1 with now := 5 }

def c4_res : DB × RunOutcome := execute env_c4 1 db_c4

/-- A mention whose `published_date` equals the presence window's
`period_end` (day 1000 under `env_c2`). -/
def m_c9 : Mention :=
  { competitor_id := 1, analysis_run_id := 1, title := "t", url := none, source := none,
    published_date := some 1000, content := none, sentiment_score := none }

def db_c9 : DB := { db0 with mentions := [m_c9] }

def c9_db : DB := try_step db_c9 (calculate_market_presence env_c2 1 1 (.num 7) db_c9)

/-- Four in-window mentions with sentiment scores 0.5, null, -0.5, null. -/
def db_c6 : DB :=
  { db0 with mentions :=
      [{ m_c9 with sentiment_score := some (1/2), published_date := some 999 },
       { m_c9 with sentiment_score := none, published_date := some 999 },
       { m_c9 with sentiment_score := some (-(1/2)), published_date := some 999 },
       { m_c9 with sentiment_score := none, published_date := some 999 }] }

def c6_db : DB := try_step db_c6 (calculate_market_presence env_c2 1 1 (.num 7) db_c6)

def comp_c10 : Competitor := { id := 1, name := "A", website_url := some ("https://a.io/") }

def db_c10 : DB := { db0 with competitors := [comp_c10] }

/-- Environment whose provider response is not JSON at all. -/
def env_c7 : Env :=
  { env_c1 with llmResponse := "this is not JSON", loads := fun _ => none }

/-- Number of stored presence rows for one (competitor, run) pair. -/
def pres_for (db : DB) (competitor_id analysis_run_id : Nat) : Nat :=
  (db.presences.filter
    (fun p => p.competitor_id == competitor_id &&
      p.analysis_run_id == analysis_run_id)).length

/-- Placeholder row used only as the default of `List.getD`. -/
def defaultPresence : Presence :=
  { competitor_id := 0, analysis_run_id := 0, mention_count := 0,
    sentiment_average := none, visibility_score := 0, trend_direction := "",
    period_start := 0, period_end := 0 }

/-- The single row stored by the boundary scenario. -/
def c9_row : Presence := c9_db.presences.getD 0 defaultPresence

/-- The single row stored by the sentiment-average scenario. -/
def c6_row : Presence := c6_db.presences.getD 0 defaultPresence

/-- A step environment in which every step raises. -/
def failing_steps : StepEnv :=
  { collect := fun _ _ _ _ => .error .typeError
    extract := fun _ _ _ => .error .typeError
    presence := fun _ _ _ _ => .error .typeError
    synth := fun _ _ => .error .typeError }

/-! Helper lemmas about the embedded operations. -/

lemma foldl_fixed_db {α : Type} (f : DB → α → DB) (h : ∀ db a, f db a = db) :
    ∀ (l : List α) (db : DB), l.foldl f db = db := by
  intro l
  induction l with
  | nil => intro db; rfl
  | cons a t ih => intro db; rw [List.foldl_cons, h]; exact ih db

lemma find?_set_run (l : List RunRec) (rid : Nat) (f : RunRec → RunRec)
    (hf : ∀ r, (f r).id = r.id) :
    (l.map (fun r => if r.id == rid then f r else r)).find? (fun r => r.id == rid) =
      (l.find? (fun r => r.id == rid)).map f := by
  induction l with
  | nil => rfl
  | cons r t ih =>
    by_cases h : r.id = rid
    · simp [List.find?_cons, h, hf]
    · have hb : (r.id == rid) = false := by simp [h]
      simp only [List.map_cons, List.find?_cons, hb]
      rw [if_neg (by simp [h])]
      simp only [hb]
      exact ih

lemma set_run_find? (db : DB) (rid : Nat) (f : RunRec → RunRec)
    (hf : ∀ r, (f r).id = r.id) :
    (set_run db rid f).runs.find? (fun x => x.id == rid) =
      (db.runs.find? (fun x => x.id == rid)).map f :=
  find?_set_run db.runs rid f hf

lemma calc_of_bad_days (env : Env) (cid rid : Nat) (days : PVal) (db : DB) (e : Err)
    (ht : timedelta_days days = .error e) :
    calculate_market_presence env cid rid days db = .error e := by
  unfold calculate_market_presence
  rw [ht]

lemma calc_of_empty (env : Env) (cid rid : Nat) (days : PVal) (db : DB) (d : ℤ)
    (ht : timedelta_days days = .ok d)
    (hf : db.mentions.filter (in_window (env.now - d) env.now cid rid) = []) :
    calculate_market_presence env cid rid days db = .ok db := by
  unfold calculate_market_presence
  rw [ht]
  simp [hf]

lemma calc_of_nonempty (env : Env) (cid rid : Nat) (days : PVal) (db : DB) (d : ℤ)
    (ht : timedelta_days days = .ok d)
    (hne : db.mentions.filter (in_window (env.now - d) env.now cid rid) ≠ []) :
    calculate_market_presence env cid rid days db =
      .ok { db with presences := db.presences ++
        [mk_presence_row cid rid
          (db.mentions.filter (in_window (env.now - d) env.now cid rid))
          (env.now - d) env.now] } := by
  unfold calculate_market_presence
  rw [ht]
  simp [hne]

lemma collect_step_eq (env : Env) (cid rid : Nat) (days : PVal) (db : DB) :
    (concrete_steps env).collect cid rid days db =
      calculate_market_presence env cid rid days
        (collect_competitor_news env cid rid (get_company_name db cid) days db) := rfl

lemma collect_news_mentions (env : Env) (cid rid : Nat) (name : String) (days : PVal)
    (db : DB) :
    (collect_competitor_news env cid rid name days db).mentions =
      db.mentions ++ (env.searchNews name days).map (normalize_article name cid rid) := rfl

lemma calc_ok_shape (env : Env) (cid rid : Nat) (days : PVal) (db db' : DB)
    (hcalc : calculate_market_presence env cid rid days db = .ok db') :
    db'.runs = db.runs ∧ db'.mentions = db.mentions ∧ db'.links = db.links ∧
    db'.competitors = db.competitors ∧ db'.insights = db.insights ∧
    db'.opportunities = db.opportunities ∧ db'.webpages = db.webpages := by
  unfold calculate_market_presence at hcalc
  cases h : timedelta_days days with
  | error e => rw [h] at hcalc; simp at hcalc
  | ok d =>
    rw [h] at hcalc
    simp only at hcalc
    split at hcalc
    · cases hcalc; exact ⟨rfl, rfl, rfl, rfl, rfl, rfl, rfl⟩
    · cases hcalc; exact ⟨rfl, rfl, rfl, rfl, rfl, rfl, rfl⟩

lemma generate_ok_shape (env : Env) (rid : Nat) (db db' : DB)
    (hg : generate_differentiation_insights env rid db = .ok db') :
    db'.runs = db.runs ∧ db'.mentions = db.mentions ∧ db'.presences = db.presences ∧
    db'.links = db.links ∧ db'.competitors = db.competitors ∧ db'.webpages = db.webpages := by
  unfold generate_differentiation_insights at hg
  cases hf : db.runs.find? (fun r => r.id == rid) with
  | none => rw [hf] at hg; cases hg; exact ⟨rfl, rfl, rfl, rfl, rfl, rfl⟩
  | some run =>
    rw [hf] at hg
    dsimp only at hg
    split at hg
    · cases hg; exact ⟨rfl, rfl, rfl, rfl, rfl, rfl⟩
    · cases hl : env.loads (py_strip (strip_code_fence env.llmResponse)) with
      | none => rw [hl] at hg; cases hg; exact ⟨rfl, rfl, rfl, rfl, rfl, rfl⟩
      | some data =>
        rw [hl] at hg
        dsimp only at hg
        cases data with
        | obj fs =>
          dsimp only at hg
          split at hg
          · cases hg
          · split at hg
            · cases hg
            · split at hg
              · cases hg
              · split at hg
                · cases hg
                · cases hg; exact ⟨rfl, rfl, rfl, rfl, rfl, rfl⟩
        | null => cases hg
        | bool b => cases hg
        | num q => cases hg
        | str s => cases hg
        | arr xs => cases hg

lemma extract_ok_shape (env : Env) (cid rid : Nat) (db db' : DB)
    (hex : (concrete_steps env).extract cid rid db = .ok db') :
    db'.runs = db.runs ∧ db'.mentions = db.mentions ∧ db'.presences = db.presences ∧
    db'.links = db.links ∧ db'.competitors = db.competitors ∧
    db'.insights = db.insights ∧ db'.opportunities = db.opportunities := by
  simp only [concrete_steps] at hex
  cases hc : db.competitors.find? (fun c => c.id == cid) with
  | none => rw [hc] at hex; cases hex; exact ⟨rfl, rfl, rfl, rfl, rfl, rfl, rfl⟩
  | some c =>
    rw [hc] at hex
    dsimp only at hex
    cases hu : c.website_url with
    | none => rw [hu] at hex; cases hex; exact ⟨rfl, rfl, rfl, rfl, rfl, rfl, rfl⟩
    | some u =>
      rw [hu] at hex
      dsimp only at hex
      split at hex
      · cases hex; exact ⟨rfl, rfl, rfl, rfl, rfl, rfl, rfl⟩
      · cases hex; exact ⟨rfl, rfl, rfl, rfl, rfl, rfl, rfl⟩

lemma try_step_extract_shape (env : Env) (cid rid : Nat) (db : DB) :
    (try_step db ((concrete_steps env).extract cid rid db)).mentions = db.mentions ∧
    (try_step db ((concrete_steps env).extract cid rid db)).presences = db.presences ∧
    (try_step db ((concrete_steps env).extract cid rid db)).runs = db.runs ∧
    (try_step db ((concrete_steps env).extract cid rid db)).links = db.links ∧
    (try_step db ((concrete_steps env).extract cid rid db)).competitors = db.competitors := by
  cases hx : (concrete_steps env).extract cid rid db with
  | error e => exact ⟨rfl, rfl, rfl, rfl, rfl⟩
  | ok dbe =>
    obtain ⟨h1, h2, h3, h4, h5, _, _⟩ := extract_ok_shape env cid rid db dbe hx
    exact ⟨h2, h3, h1, h4, h5⟩

lemma pres_for_append_row (cid rid : Nat) (l : List Mention) (a b : Time)
    (extra : List Presence) :
    (List.filter (fun p => p.competitor_id == cid && p.analysis_run_id == rid)
      (extra ++ [mk_presence_row cid rid l a b])).length =
    (List.filter (fun p => p.competitor_id == cid && p.analysis_run_id == rid) extra).length
      + 1 := by
  rw [List.filter_append, List.length_append]
  simp [mk_presence_row]

lemma collect_step_ok_shape (env : Env) (cid rid : Nat) (days : PVal) (db db' : DB)
    (h : (concrete_steps env).collect cid rid days db = .ok db') :
    db'.runs = db.runs ∧ db'.links = db.links ∧ db'.competitors = db.competitors := by
  rw [collect_step_eq] at h
  obtain ⟨h1, _, h3, h4, _, _, _⟩ :=
    calc_ok_shape env cid rid days
      (collect_competitor_news env cid rid (get_company_name db cid) days db) db' h
  exact ⟨h1, h3, h4⟩

lemma process_shape (env : Env) (rid cid : Nat) (days : PVal) (db : DB) :
    (process_competitor (concrete_steps env) rid days db cid).runs = db.runs ∧
    (process_competitor (concrete_steps env) rid days db cid).links = db.links ∧
    (process_competitor (concrete_steps env) rid days db cid).competitors = db.competitors := by
  unfold process_competitor
  dsimp only
  set db1 := try_step db ((concrete_steps env).collect cid rid days db) with hdb1
  have s1 : db1.runs = db.runs ∧ db1.links = db.links ∧ db1.competitors = db.competitors := by
    rw [hdb1]
    cases hc : (concrete_steps env).collect cid rid days db with
    | error e => exact ⟨rfl, rfl, rfl⟩
    | ok dbc => exact collect_step_ok_shape env cid rid days db dbc hc
  set db2 := try_step db1 ((concrete_steps env).extract cid rid db1) with hdb2
  have s2 : db2.runs = db1.runs ∧ db2.links = db1.links ∧ db2.competitors = db1.competitors := by
    obtain ⟨_, _, h3, h4, h5⟩ := try_step_extract_shape env cid rid db1
    exact ⟨h3, h4, h5⟩
  have s3 : (try_step db2 ((concrete_steps env).presence cid rid days db2)).runs = db2.runs ∧
      (try_step db2 ((concrete_steps env).presence cid rid days db2)).links = db2.links ∧
      (try_step db2 ((concrete_steps env).presence cid rid days db2)).competitors =
        db2.competitors := by
    cases hp : (concrete_steps env).presence cid rid days db2 with
    | error e => exact ⟨rfl, rfl, rfl⟩
    | ok dbp =>
      obtain ⟨h1, _, h3, h4, _, _, _⟩ := calc_ok_shape env cid rid days db2 dbp hp
      exact ⟨h1, h3, h4⟩
  obtain ⟨a1, b1, c1⟩ := s1
  obtain ⟨a2, b2, c2⟩ := s2
  obtain ⟨a3, b3, c3⟩ := s3
  exact ⟨a3.trans (a2.trans a1), b3.trans (b2.trans b1), c3.trans (c2.trans c1)⟩

lemma foldl_process_shape (env : Env) (rid : Nat) (days : PVal) :
    ∀ (l : List Nat) (db : DB),
      ((l.foldl (process_competitor (concrete_steps env) rid days) db).runs = db.runs ∧
       (l.foldl (process_competitor (concrete_steps env) rid days) db).links = db.links ∧
       (l.foldl (process_competitor (concrete_steps env) rid days) db).competitors =
         db.competitors) := by
  intro l
  induction l with
  | nil => intro db; exact ⟨rfl, rfl, rfl⟩
  | cons cid t ih =>
    intro db
    rw [List.foldl_cons]
    obtain ⟨a1, b1, c1⟩ := process_shape env rid cid days db
    obtain ⟨a2, b2, c2⟩ := ih (process_competitor (concrete_steps env) rid days db cid)
    exact ⟨a2.trans a1, b2.trans b1, c2.trans c1⟩

lemma try_step_synth_shape (env : Env) (rid : Nat) (db : DB) :
    (try_step db ((concrete_steps env).synth rid db)).runs = db.runs ∧
    (try_step db ((concrete_steps env).synth rid db)).mentions = db.mentions ∧
    (try_step db ((concrete_steps env).synth rid db)).presences = db.presences := by
  cases hg : (concrete_steps env).synth rid db with
  | error e => exact ⟨rfl, rfl, rfl⟩
  | ok dbg =>
    obtain ⟨h1, h2, h3, _, _, _⟩ := generate_ok_shape env rid db dbg hg
    exact ⟨h1, h2, h3⟩

lemma filter_no_rid (rid : Nat) (l : List Mention) (a b : Time) (cid : Nat)
    (hm : ∀ m ∈ l, m.analysis_run_id ≠ rid) :
    l.filter (in_window a b cid rid) = [] := by
  apply List.filter_eq_nil_iff.mpr
  intro m hmem
  have hne := hm m hmem
  have hb : (m.analysis_run_id == rid) = false := by simp [hne]
  simp [in_window, hb]

lemma process_empty_shape (env : Env) (rid cid : Nat) (days : PVal) (db : DB)
    (hs : ∀ n d, env.searchNews n d = [])
    (hm : ∀ m ∈ db.mentions, m.analysis_run_id ≠ rid) :
    (process_competitor (concrete_steps env) rid days db cid).mentions = db.mentions ∧
    (process_competitor (concrete_steps env) rid days db cid).presences = db.presences := by
  unfold process_competitor
  dsimp only
  set name := get_company_name db cid with hname
  set dbm := collect_competitor_news env cid rid name days db with hdbm
  have hMm : dbm.mentions = db.mentions := by
    rw [hdbm, collect_news_mentions, hs, List.map_nil, List.append_nil]
  have hMp : dbm.presences = db.presences := rfl
  have hstep1 : try_step db ((concrete_steps env).collect cid rid days db) = dbm ∨
      try_step db ((concrete_steps env).collect cid rid days db) = db := by
    rw [collect_step_eq, ← hname, ← hdbm]
    cases ht : timedelta_days days with
    | error e => right; rw [calc_of_bad_days env cid rid days dbm e ht]; rfl
    | ok d =>
      left
      rw [calc_of_empty env cid rid days dbm d ht
        (by rw [hMm]; exact filter_no_rid rid db.mentions _ _ cid hm)]
      rfl
  have key : ∀ dbx : DB, dbx.mentions = db.mentions → dbx.presences = db.presences →
      (try_step (try_step dbx ((concrete_steps env).extract cid rid dbx))
        ((concrete_steps env).presence cid rid days
          (try_step dbx ((concrete_steps env).extract cid rid dbx)))).mentions = db.mentions ∧
      (try_step (try_step dbx ((concrete_steps env).extract cid rid dbx))
        ((concrete_steps env).presence cid rid days
          (try_step dbx ((concrete_steps env).extract cid rid dbx)))).presences =
        db.presences := by
    intro dbx hxm hxp
    obtain ⟨e1, e2, _, _, _⟩ := try_step_extract_shape env cid rid dbx
    set db2 := try_step dbx ((concrete_steps env).extract cid rid dbx) with hdb2
    have h2m : db2.mentions = db.mentions := e1.trans hxm
    have h2p : db2.presences = db.presences := e2.trans hxp
    cases ht : timedelta_days days with
    | error e =>
      have hpe : (concrete_steps env).presence cid rid days db2 = .error e :=
        calc_of_bad_days env cid rid days db2 e ht
      rw [hpe]
      exact ⟨h2m, h2p⟩
    | ok d =>
      have hpo : (concrete_steps env).presence cid rid days db2 = .ok db2 :=
        calc_of_empty env cid rid days db2 d ht
          (by rw [h2m]; exact filter_no_rid rid db.mentions _ _ cid hm)
      rw [hpo]
      exact ⟨h2m, h2p⟩
  cases hstep1 with
  | inl h => rw [h]; exact key dbm hMm hMp
  | inr h => rw [h]; exact key db rfl rfl

lemma foldl_empty_shape (env : Env) (rid : Nat) (days : PVal)
    (hs : ∀ n d, env.searchNews n d = []) :
    ∀ (l : List Nat) (db : DB), (∀ m ∈ db.mentions, m.analysis_run_id ≠ rid) →
      ((l.foldl (process_competitor (concrete_steps env) rid days) db).mentions =
        db.mentions ∧
       (l.foldl (process_competitor (concrete_steps env) rid days) db).presences =
        db.presences) := by
  intro l
  induction l with
  | nil => intro db _; exact ⟨rfl, rfl⟩
  | cons cid t ih =>
    intro db hm
    rw [List.foldl_cons]
    obtain ⟨h1, h2⟩ := process_empty_shape env rid cid days db hs hm
    obtain ⟨h3, h4⟩ := ih (process_competitor (concrete_steps env) rid days db cid)
      (by rw [h1]; exact hm)
    exact ⟨h3.trans h1, h4.trans h2⟩

/-! The claims. -/

/-- C1 (counterexample): with one run linked to two competitors, a Source
Adapter that always returns empty lists (`env_c1.searchNews` is constantly
`[]`), and a provider response that parses to one insight, `execute` ends
`completed` having produced zero Mentions and zero PresenceSummaries but
one Insight row — refuting the claim's assertion that zero Insight rows
are produced whenever the adapter always returns empty lists. -/
theorem c1_counterexample :
    (db0.links.filter (fun l => l.1 == 1)).length = 2 ∧
    c1_res.1.insights.length = 1 ∧
    c1_res.1.mentions = [] ∧
    c1_res.1.presences = [] ∧
    c1_res.2 = RunOutcome.completed := by
  refine ⟨by decide, by decide, by decide, by decide, by decide⟩

/-- C1 (amended): (1) if every per-competitor step and the synthesis step
raise exceptions, `execute` still ends with the run `completed` and
`completed_at` stamped, and produces zero Mention, PresenceSummary,
Insight and Opportunity rows; (2) if the Source Adapter always returns
empty lists (and the run has no pre-existing mentions), `execute` ends
`completed` with zero Mention and PresenceSummary rows produced — Insight
rows then depend only on the synthesis response; (3) per-step failures
alone never produce the `failed` outcome: whenever the run exists the
driver finishes with `completed`. -/
theorem c1_run_completes_with_contained_failures :
    (∀ (senv : StepEnv) (now : Time) (rid : Nat) (db : DB) (run : RunRec),
      db.runs.find? (fun x => x.id == rid) = some run →
      (∀ c r d s, ∃ e, senv.collect c r d s = Except.error e) →
      (∀ c r s, ∃ e, senv.extract c r s = Except.error e) →
      (∀ c r d s, ∃ e, senv.presence c r d s = Except.error e) →
      (∀ r s, ∃ e, senv.synth r s = Except.error e) →
      ((run_full_analysis_sync senv now rid db).2 = .completed ∧
       (run_full_analysis_sync senv now rid db).1.mentions = db.mentions ∧
       (run_full_analysis_sync senv now rid db).1.presences = db.presences ∧
       (run_full_analysis_sync senv now rid db).1.insights = db.insights ∧
       (run_full_analysis_sync senv now rid db).1.opportunities = db.opportunities ∧
       ((run_full_analysis_sync senv now rid db).1.runs.find? (fun x => x.id == rid)).map
         (fun x => (x.status, x.completed_at)) = some ("completed", some now))) ∧
    (∀ (env : Env) (rid : Nat) (db : DB) (run : RunRec),
      db.runs.find? (fun x => x.id == rid) = some run →
      (∀ n d, env.searchNews n d = []) →
      (∀ m ∈ db.mentions, m.analysis_run_id ≠ rid) →
      ((execute env rid db).2 = .completed ∧
       (execute env rid db).1.mentions = db.mentions ∧
       (execute env rid db).1.presences = db.presences ∧
       ((execute env rid db).1.runs.find? (fun x => x.id == rid)).map
         (fun x => (x.status, x.completed_at)) = some ("completed", some env.now))) ∧
    (∀ (senv : StepEnv) (now : Time) (rid : Nat) (db : DB) (run : RunRec),
      db.runs.find? (fun x => x.id == rid) = some run →
      (run_full_analysis_sync senv now rid db).2 ≠ .failed) := by
  refine ⟨?part1, ?part2, ?part3⟩
  case part1 =>
    intro senv now rid db run hfind hc hx hp hsy
    have hproc : ∀ (d : PVal) (db0 : DB) (cid : Nat),
        process_competitor senv rid d db0 cid = db0 := by
      intro d db0 cid
      unfold process_competitor
      dsimp only
      obtain ⟨e1, h1⟩ := hc cid rid d db0
      rw [h1]
      rw [show try_step db0 (Except.error e1) = db0 from rfl]
      obtain ⟨e2, h2⟩ := hx cid rid db0
      rw [h2]
      rw [show try_step db0 (Except.error e2) = db0 from rfl]
      obtain ⟨e3, h3⟩ := hp cid rid d db0
      rw [h3]
      rfl
    unfold run_full_analysis_sync
    rw [hfind]
    dsimp only
    set f1 : RunRec → RunRec :=
      fun x => { x with status := "in_progress", started_at := some now } with hf1
    set f2 : RunRec → RunRec :=
      fun x => { x with status := "completed", completed_at := some now } with hf2
    set db1 := set_run db rid f1 with hdb1
    rw [foldl_fixed_db _ (fun db0 cid => hproc (get_days_back run.parameters) db0 cid)]
    obtain ⟨e4, h4⟩ := hsy rid db1
    rw [h4]
    rw [show try_step db1 (Except.error e4) = db1 from rfl]
    refine ⟨rfl, rfl, rfl, rfl, rfl, ?_⟩
    rw [set_run_find? _ rid f2 (fun x => rfl)]
    rw [hdb1, set_run_find? _ rid f1 (fun x => rfl)]
    rw [hfind]
    rfl
  case part2 =>
    intro env rid db run hfind hs hm
    unfold execute run_full_analysis_sync
    rw [hfind]
    dsimp only
    set f1 : RunRec → RunRec :=
      fun x => { x with status := "in_progress", started_at := some env.now } with hf1
    set f2 : RunRec → RunRec :=
      fun x => { x with status := "completed", completed_at := some env.now } with hf2
    set db1 := set_run db rid f1 with hdb1
    set comp_ids := ((set_run db rid f1).links.filter (fun l => l.1 == rid)).map
      (fun l => l.2) with hcomp
    set dbL := comp_ids.foldl (process_competitor (concrete_steps env) rid
      (get_days_back run.parameters)) db1 with hdbL
    obtain ⟨hLm, hLp⟩ := foldl_empty_shape env rid (get_days_back run.parameters) hs
      comp_ids db1 hm
    rw [← hdbL] at hLm hLp
    obtain ⟨hruns, _, _⟩ := foldl_process_shape env rid (get_days_back run.parameters)
      comp_ids db1
    rw [← hdbL] at hruns
    obtain ⟨hr2, hm2, hp2⟩ := try_step_synth_shape env rid dbL
    refine ⟨rfl, ?_, ?_, ?_⟩
    · show (try_step dbL ((concrete_steps env).synth rid dbL)).mentions = db.mentions
      rw [hm2, hLm]
      rfl
    · show (try_step dbL ((concrete_steps env).synth rid dbL)).presences = db.presences
      rw [hp2, hLp]
      rfl
    · rw [set_run_find? _ rid f2 (fun x => rfl)]
      rw [hr2, hruns]
      rw [hdb1, set_run_find? _ rid f1 (fun x => rfl)]
      rw [hfind]
      rfl
  case part3 =>
    intro senv now rid db run hfind
    unfold run_full_analysis_sync
    rw [hfind]
    dsimp only
    decide

/-- C1 (witness): the amended theorem applied at a concrete all-failing
step environment, at the concrete empty-adapter environment `env_c1`, and
for the never-`failed` clause. -/
theorem c1_witness :
    ((run_full_analysis_sync failing_steps 42 1 db0).2 = .completed ∧
     (run_full_analysis_sync failing_steps 42 1 db0).1.mentions = db0.mentions ∧
     (run_full_analysis_sync failing_steps 42 1 db0).1.presences = db0.presences ∧
     (run_full_analysis_sync failing_steps 42 1 db0).1.insights = db0.insights ∧
     (run_full_analysis_sync failing_steps 42 1 db0).1.opportunities = db0.opportunities ∧
     ((run_full_analysis_sync failing_steps 42 1 db0).1.runs.find?
       (fun x => x.id == 1)).map (fun x => (x.status, x.completed_at)) =
         some ("completed", some 42)) ∧
    ((execute env_c1 1 db0).2 = .completed ∧
     (execute env_c1 1 db0).1.mentions = db0.mentions ∧
     (execute env_c1 1 db0).1.presences = db0.presences ∧
     ((execute env_c1 1 db0).1.runs.find? (fun x => x.id == 1)).map
       (fun x => (x.status, x.completed_at)) = some ("completed", some 1000)) ∧
    (run_full_analysis_sync failing_steps 42 1 db0).2 ≠ .failed := by
  refine ⟨?_, ?_, ?_⟩
  · exact c1_run_completes_with_contained_failures.1 failing_steps 42 1 db0 baseRun rfl
      (fun c r d s => ⟨.typeError, rfl⟩) (fun c r s => ⟨.typeError, rfl⟩)
      (fun c r d s => ⟨.typeError, rfl⟩) (fun r s => ⟨.typeError, rfl⟩)
  · exact c1_run_completes_with_contained_failures.2.1 env_c1 1 db0 baseRun rfl
      (fun n d => rfl) (fun m hm => absurd hm (List.not_mem_nil m))
  · exact c1_run_completes_with_contained_failures.2.2 failing_steps 42 1 db0 baseRun rfl

/-- C2 (counterexample): in the end-to-end scenario (two competitors,
`days_back = 7`, three in-window articles for A with sentiments 0.8, 1.0
and null, none for B) the stored PresenceSummary for A has
`trend_direction = "stable"`, not `"declining"` as the claim states:
`mention_count = 3` falls in the `count >= 2` band. -/
theorem c2_counterexample :
    c2_dbA.presences.map (fun p => p.trend_direction) = ["stable"] ∧
    ("stable" : String) ≠ "declining" := by
  exact ⟨by decide, by decide⟩

/-- C2 (amended): in that scenario the presence computation stores for A
exactly one row with `mention_count = 3`, `sentiment_average = 0.9`,
`visibility_score = 6` and `trend_direction = "stable"` over the window
`[993, 1000]`, and stores no row for B (after B's step the store still
holds only A's single row). -/
theorem c2_end_to_end_scenario :
    c2_dbA.mentions.length = 3 ∧
    c2_dbA.presences.map (fun p =>
      (p.competitor_id, p.analysis_run_id, p.mention_count, p.trend_direction,
        p.period_start, p.period_end)) = [(1, 1, 3, "stable", 993, 1000)] ∧
    c2_dbA.presences.map (fun p => p.sentiment_average) = [some (9/10)] ∧
    c2_dbA.presences.map (fun p => p.visibility_score) = [6] ∧
    c2_dbB.presences.length = 1 ∧
    c2_dbB.presences.map (fun p => p.competitor_id) = [1] := by
  refine ⟨by decide, by decide, ?_, ?_, by decide, by decide⟩
  · have h1 : c2_dbA.presences.map (fun p => p.sentiment_average) =
        [some (List.sum [(4 : ℚ)/5, 1] / 2)] := rfl
    have h2 : List.sum [(4 : ℚ)/5, 1] / 2 = 9/10 := by
      norm_num [List.sum_cons, List.sum_nil]
    rw [h2] at h1
    exact h1
  · have h1 : c2_dbA.presences.map (fun p => p.visibility_score) =
        [visibility_of 3] := rfl
    have h2 : visibility_of 3 = 6 := by norm_num [visibility_of]
    rw [h2] at h1
    exact h1

/-- C3 (counterexample): one `execute` over a run with one competitor and
a single in-window article stores two PresenceSummary rows for the same
(competitor, run) pair — the collect-news step itself computes presence
(`_collect_news_and_presence`) and the separate presence step stores a
second row — refuting both "collect_news writes no PresenceSummary row"
and "at most one PresenceSummary row per (competitor, run)". -/
theorem c3_counterexample :
    c3_res.1.presences.map (fun p => (p.competitor_id, p.analysis_run_id)) =
      [(1, 1), (1, 1)] ∧
    c3_res.2 = RunOutcome.completed := by
  exact ⟨by decide, by decide⟩

/-- C3 (amended): the per-competitor processing of `execute` stores, for
that (competitor, run), zero PresenceSummary rows when the window is
invalid or no mention (pre-existing or just collected) falls in it, and
exactly two rows otherwise — one written inside the collect-news step and
one by the separate presence step. -/
theorem c3_presence_rows_per_competitor (env : Env) (rid cid : Nat) (days : PVal)
    (db : DB) :
    pres_for (process_competitor (concrete_steps env) rid days db cid) cid rid =
      pres_for db cid rid +
        (match timedelta_days days with
         | .error _ => 0
         | .ok d =>
           if ((db.mentions ++ (env.searchNews (get_company_name db cid) days).map
                 (normalize_article (get_company_name db cid) cid rid)).filter
                 (in_window (env.now - d) env.now cid rid)) = []
           then 0 else 2) := by
  unfold process_competitor
  dsimp only
  cases ht : timedelta_days days with
  | error e =>
    have hc1 : try_step db ((concrete_steps env).collect cid rid days db) = db := by
      rw [collect_step_eq, calc_of_bad_days env cid rid days _ e ht]; rfl
    rw [hc1]
    obtain ⟨hm2, hp2, _, _, _⟩ := try_step_extract_shape env cid rid db
    have hc3 : (concrete_steps env).presence cid rid days
        (try_step db ((concrete_steps env).extract cid rid db)) = .error e := by
      show calculate_market_presence env cid rid days _ = _
      exact calc_of_bad_days env cid rid days _ e ht
    rw [hc3]
    show pres_for (try_step db ((concrete_steps env).extract cid rid db)) cid rid =
      pres_for db cid rid + 0
    unfold pres_for
    rw [hp2]
    rfl
  | ok d =>
    set name := get_company_name db cid with hname
    set M := (env.searchNews name days).map (normalize_article name cid rid) with hM
    set dbm := collect_competitor_news env cid rid name days db with hdbm
    have hmm : dbm.mentions = db.mentions ++ M := rfl
    have hfilter : dbm.mentions.filter (in_window (env.now - d) env.now cid rid) =
        (db.mentions ++ M).filter (in_window (env.now - d) env.now cid rid) := by rw [hmm]
    by_cases hE : ((db.mentions ++ M).filter (in_window (env.now - d) env.now cid rid)) = []
    · have hc1 : try_step db ((concrete_steps env).collect cid rid days db) = dbm := by
        rw [collect_step_eq, ← hname, ← hdbm,
          calc_of_empty env cid rid days dbm d ht (by rw [hfilter, hE])]
        rfl
      rw [hc1]
      obtain ⟨hm2, hp2, _, _, _⟩ := try_step_extract_shape env cid rid dbm
      set db2 := try_step dbm ((concrete_steps env).extract cid rid dbm) with hdb2
      have hc3 : (concrete_steps env).presence cid rid days db2 = .ok db2 := by
        show calculate_market_presence env cid rid days db2 = _
        exact calc_of_empty env cid rid days db2 d ht (by rw [hm2, hmm, hE])
      rw [hc3]
      show pres_for db2 cid rid = pres_for db cid rid + _
      unfold pres_for
      rw [hp2]
      have hpp : dbm.presences = db.presences := rfl
      rw [hpp]
      simp [hE]
    · have hc1 : try_step db ((concrete_steps env).collect cid rid days db) =
          { dbm with presences := dbm.presences ++
            [mk_presence_row cid rid
              ((db.mentions ++ M).filter (in_window (env.now - d) env.now cid rid))
              (env.now - d) env.now] } := by
        rw [collect_step_eq, ← hname, ← hdbm,
          calc_of_nonempty env cid rid days dbm d ht (by rw [hfilter]; exact hE)]
        rw [try_step, hfilter]
      rw [hc1]
      set dbp := { dbm with presences := dbm.presences ++
        [mk_presence_row cid rid
          ((db.mentions ++ M).filter (in_window (env.now - d) env.now cid rid))
          (env.now - d) env.now] } with hdbp
      obtain ⟨hm2, hp2, _, _, _⟩ := try_step_extract_shape env cid rid dbp
      set db2 := try_step dbp ((concrete_steps env).extract cid rid dbp) with hdb2
      have hments2 : db2.mentions = db.mentions ++ M := by
        rw [hm2]
        show dbm.mentions = _
        exact hmm
      have hc3 : (concrete_steps env).presence cid rid days db2 =
          .ok { db2 with presences := db2.presences ++
            [mk_presence_row cid rid
              ((db.mentions ++ M).filter (in_window (env.now - d) env.now cid rid))
              (env.now - d) env.now] } := by
        show calculate_market_presence env cid rid days db2 = _
        rw [calc_of_nonempty env cid rid days db2 d ht (by rw [hments2]; exact hE)]
        rw [hments2]
      rw [hc3]
      show pres_for _ cid rid = pres_for db cid rid + _
      unfold pres_for
      show (List.filter _ (db2.presences ++ [_])).length = _
      rw [pres_for_append_row]
      rw [hp2, hdbp]
      show (List.filter _ (dbm.presences ++ [_])).length + 1 = _
      rw [pres_for_append_row]
      have hpp : dbm.presences = db.presences := rfl
      rw [hpp]
      dsimp only
      rw [if_neg hE]

/-- C4 (counterexample): a run already terminal (`completed`, stamped at
day 0) is re-run by a later `execute` invocation with the clock at day 5,
which re-stamps `started_at` and `completed_at` — terminal states are not
guarded against re-execution. -/
theorem c4_counterexample :
    db_c4.runs.map (fun r => (r.status, r.started_at, r.completed_at)) =
      [("completed", some 0, some 0)] ∧
    c4_res.1.runs.map (fun r => (r.status, r.started_at, r.completed_at)) =
      [("completed", some 5, some 5)] := by
  exact ⟨by decide, by decide⟩

/-- C4 (amended): a `completed` or `failed` run is not terminal under
re-execution: a subsequent `execute(run_id)` re-runs the whole pipeline,
moving the run through `in_progress` back to `completed` and re-stamping
both `started_at` and `completed_at` with the current clock; no guard
rejects the re-entry. -/
theorem c4_reexecution_restamps (env : Env) (rid : Nat) (db : DB) (r : RunRec)
    (hfind : db.runs.find? (fun x => x.id == rid) = some r)
    (hterm : r.status = "completed" ∨ r.status = "failed") :
    (execute env rid db).2 = .completed ∧
    ((execute env rid db).1.runs.find? (fun x => x.id == rid)).map
      (fun x => (x.status, x.started_at, x.completed_at)) =
      some ("completed", some env.now, some env.now) := by
  unfold execute run_full_analysis_sync
  rw [hfind]
  dsimp only
  refine ⟨rfl, ?_⟩
  set f1 : RunRec → RunRec :=
    fun x => { x with status := "in_progress", started_at := some env.now } with hf1
  set f2 : RunRec → RunRec :=
    fun x => { x with status := "completed", completed_at := some env.now } with hf2
  set db1 := set_run db rid f1 with hdb1
  set dbL := (((set_run db rid f1).links.filter (fun l => l.1 == rid)).map
      (fun l => l.2)).foldl (process_competitor (concrete_steps env) rid
        (get_days_back r.parameters)) db1 with hdbL
  obtain ⟨hruns, _, _⟩ := foldl_process_shape env rid (get_days_back r.parameters)
    (((set_run db rid f1).links.filter (fun l => l.1 == rid)).map (fun l => l.2)) db1
  obtain ⟨hruns2, _, _⟩ := try_step_synth_shape env rid dbL
  rw [set_run_find? _ rid f2 (fun x => rfl)]
  rw [hruns2]
  rw [← hdbL] at hruns
  rw [hruns]
  rw [hdb1, set_run_find? _ rid f1 (fun x => rfl)]
  rw [hfind]
  rfl

/-- C4 (witness): the amended theorem at the concrete terminal run
`db_c4` (completed, stamped at day 0) re-executed with the clock at 5. -/
theorem c4_witness :
    (execute env_c4 1 db_c4).2 = .completed ∧
    ((execute env_c4 1 db_c4).1.runs.find? (fun x => x.id == 1)).map
      (fun x => (x.status, x.started_at, x.completed_at)) =
      some ("completed", some 5, some 5) :=
  c4_reexecution_restamps env_c4 1 db_c4 run_c4 rfl (Or.inl rfl)

/-- C5: every PresenceSummary row stored by `calculate_market_presence`
has `visibility_score = min(100, mention_count * 2)` and
`trend_direction` equal to the fixed three-band classification; the
derived visibility is monotone nondecreasing in the count, bounded by
100, takes the values 0, 2, 4, 10, 100, 100 at counts 0, 1, 2, 5, 50,
1000, and the trend boundaries are 1 → declining, 2 → stable,
4 → stable, 5 → rising. -/
theorem c5_visibility_and_trend :
    (∀ (env : Env) (cid rid : Nat) (days : PVal) (db db' : DB),
      calculate_market_presence env cid rid days db = .ok db' →
      ∀ p ∈ db'.presences, p ∉ db.presences →
        p.visibility_score = min 100 (p.mention_count * 2) ∧
        p.trend_direction =
          (if p.mention_count ≥ 5 then "rising"
           else if p.mention_count ≥ 2 then "stable" else "declining")) ∧
    (∀ m n : Nat, m ≤ n → visibility_of m ≤ visibility_of n) ∧
    (∀ n : Nat, visibility_of n ≤ 100) ∧
    (visibility_of 0 = 0 ∧ visibility_of 1 = 2 ∧ visibility_of 2 = 4 ∧
     visibility_of 5 = 10 ∧ visibility_of 50 = 100 ∧ visibility_of 1000 = 100) ∧
    (trend_of 1 = "declining" ∧ trend_of 2 = "stable" ∧ trend_of 4 = "stable" ∧
     trend_of 5 = "rising") := by
  refine ⟨?rows, ?mono, ?bound, ?samples, ?bands⟩
  case rows =>
    intro env cid rid days db db' hcalc p hp hnew
    unfold calculate_market_presence at hcalc
    cases h : timedelta_days days with
    | error e => rw [h] at hcalc; simp at hcalc
    | ok d =>
      rw [h] at hcalc
      simp only at hcalc
      split at hcalc
      · cases hcalc
        exact absurd hp hnew
      · cases hcalc
        simp only [List.mem_append, List.mem_singleton] at hp
        rcases hp with hin | rfl
        · exact absurd hin hnew
        · constructor
          · simp [mk_presence_row, visibility_of]
          · simp [mk_presence_row, trend_of]
  case mono =>
    intro m n h
    unfold visibility_of
    apply min_le_min le_rfl
    have : (m : ℚ) ≤ n := by exact_mod_cast h
    linarith
  case bound =>
    intro n
    unfold visibility_of
    exact min_le_left _ _
  case samples =>
    refine ⟨?_, ?_, ?_, ?_, ?_, ?_⟩ <;> norm_num [visibility_of]
  case bands =>
    exact ⟨rfl, rfl, rfl, rfl⟩

/-- C5 (witness): the row theorem applied to the concrete row stored for
`db_c9` (one in-window mention), plus concrete instances of the
monotonicity clause. -/
theorem c5_witness :
    (c9_row.visibility_score = min 100 (c9_row.mention_count * 2) ∧
     c9_row.trend_direction =
       (if c9_row.mention_count ≥ 5 then "rising"
        else if c9_row.mention_count ≥ 2 then "stable" else "declining")) ∧
    visibility_of 3 ≤ visibility_of 5 := by
  refine ⟨?_, ?_⟩
  · have hp : c9_row ∈ c9_db.presences := by
      rw [show c9_db.presences = [c9_row] from rfl]
      exact List.mem_singleton.mpr rfl
    have hnew : c9_row ∉ db_c9.presences := by
      rw [show db_c9.presences = ([] : List Presence) from rfl]
      exact List.not_mem_nil _
    exact c5_visibility_and_trend.1 env_c2 1 1 (.num 7) db_c9 c9_db rfl c9_row hp hnew
  · exact c5_visibility_and_trend.2.1 3 5 (by decide)

/-- C6: the sentiment average of a row stored by
`calculate_market_presence` is null exactly when no in-window mention of
the (competitor, run) has a non-null sentiment score, and otherwise is
the arithmetic mean of the non-null scores: any stored value `a`
satisfies `count * a = sum` over the non-null scores of the in-window
subset (nulls excluded from both sum and denominator). -/
theorem c6_sentiment_average_mean (env : Env) (cid rid : Nat) (days : PVal)
    (db db' : DB) (d : ℤ)
    (hd : timedelta_days days = .ok d)
    (hcalc : calculate_market_presence env cid rid days db = .ok db')
    (p : Presence) (hp : p ∈ db'.presences) (hnew : p ∉ db.presences) :
    (p.sentiment_average = none ↔
      ((db.mentions.filter (in_window (env.now - d) env.now cid rid)).filterMap
        (fun m => m.sentiment_score)) = []) ∧
    (∀ a : ℚ, p.sentiment_average = some a →
      (((db.mentions.filter (in_window (env.now - d) env.now cid rid)).filterMap
        (fun m => m.sentiment_score)).length : ℚ) * a =
      ((db.mentions.filter (in_window (env.now - d) env.now cid rid)).filterMap
        (fun m => m.sentiment_score)).sum) := by
  unfold calculate_market_presence at hcalc
  rw [hd] at hcalc
  simp only at hcalc
  split at hcalc
  · cases hcalc; exact absurd hp hnew
  · cases hcalc
    simp only [List.mem_append, List.mem_singleton] at hp
    rcases hp with hin | rfl
    · exact absurd hin hnew
    · set scores := (db.mentions.filter (in_window (env.now - d) env.now cid rid)).filterMap
        (fun m => m.sentiment_score) with hscores
      show ((if scores.length == 0 then none
             else some (scores.sum / scores.length)) = none ↔ scores = []) ∧
        (∀ a : ℚ, (if scores.length == 0 then none
             else some (scores.sum / scores.length)) = some a →
          (scores.length : ℚ) * a = scores.sum)
      by_cases hlen : scores.length = 0
      · constructor
        · simp [hlen, List.length_eq_zero.mp hlen]
        · intro a ha
          simp [hlen] at ha
      · constructor
        · have hfalse : (scores.length == 0) = false := by simp [hlen]
          simp [hfalse]
          intro hnil
          exact hlen (by simp [hnil])
        · intro a ha
          have hfalse : (scores.length == 0) = false := by simp [hlen]
          rw [hfalse] at ha
          simp only [Bool.false_eq_true, if_false] at ha
          cases ha
          rw [mul_comm, div_mul_cancel₀]
          exact_mod_cast hlen

/-- C6 (witness): the theorem applied to the row stored for four in-window
mentions with scores 0.5, null, -0.5, null, together with the explicit
value of that row's average: 0 (nulls excluded from sum and
denominator). -/
theorem c6_witness :
    (c6_row.sentiment_average = none ↔
      ((db_c6.mentions.filter (in_window (env_c2.now - 7) env_c2.now 1 1)).filterMap
        (fun m => m.sentiment_score)) = []) ∧
    c6_db.presences.map (fun p => p.sentiment_average) = [some 0] := by
  refine ⟨?_, ?_⟩
  · have hp : c6_row ∈ c6_db.presences := by
      rw [show c6_db.presences = [c6_row] from rfl]
      exact List.mem_singleton.mpr rfl
    have hnew : c6_row ∉ db_c6.presences := by
      rw [show db_c6.presences = ([] : List Presence) from rfl]
      exact List.not_mem_nil _
    exact (c6_sentiment_average_mean env_c2 1 1 (.num 7) db_c6 c6_db 7 rfl rfl
      c6_row hp hnew).1
  · have h1 : c6_db.presences.map (fun p => p.sentiment_average) =
        [some (List.sum [(1 : ℚ)/2, -(1/2)] / 2)] := rfl
    have h2 : List.sum [(1 : ℚ)/2, -(1/2)] / 2 = 0 := by
      norm_num [List.sum_cons, List.sum_nil]
    rw [h2] at h1
    exact h1

/-- C7: for every provider response, if stripping the optional code fence
and `strip()`-ing leaves a string `json.loads` cannot parse, then
`generate_differentiation_insights` returns normally (no exception) with
the database unchanged — zero Insight and zero Opportunity rows. -/
theorem c7_parse_failure_stores_nothing (env : Env) (rid : Nat) (db : DB)
    (h : env.loads (py_strip (strip_code_fence env.llmResponse)) = none) :
    generate_differentiation_insights env rid db = .ok db := by
  unfold generate_differentiation_insights
  cases hf : db.runs.find? (fun r => r.id == rid) with
  | none => rfl
  | some run =>
    simp only
    split
    · rfl
    · rw [h]

/-- C7 (witness): the theorem at the concrete environment whose provider
answers `"this is not JSON"` and whose `loads` rejects everything. -/
theorem c7_witness :
    env_c7.loads (py_strip (strip_code_fence env_c7.llmResponse)) = none ∧
    generate_differentiation_insights env_c7 1 db0 = .ok db0 :=
  ⟨rfl, c7_parse_failure_stores_nothing env_c7 1 db0 rfl⟩

/-- C8 (counterexample): with `parameters = {"days_back": "soon"}` the
resolved window size is the stored string itself, not 30 — the code only
defaults when the key is absent — and the presence computation then
raises `TypeError` from `timedelta(days="soon")` instead of using a
30-day window. -/
theorem c8_counterexample :
    get_days_back (some [("days_back", PVal.str "soon")]) = PVal.str "soon" ∧
    PVal.str "soon" ≠ PVal.num 30 ∧
    calculate_market_presence env_c2 1 1 (PVal.str "soon") db_c9 =
      .error .typeError := by
  exact ⟨rfl, by decide, rfl⟩

/-- C8 (amended): `execute` resolves the window size as
`(parameters or {}).get("days_back", 30)`: 30 when the parameter bag is
null or the key is absent, and the stored value verbatim whenever the key
is present — an invalid (non-numeric) stored value is not replaced by 30
but makes the window computation of the presence step raise
`TypeError`. -/
theorem c8_days_back_resolution :
    (get_days_back none = PVal.num 30) ∧
    (∀ l : List (String × PVal), l.lookup ("days_back") = none →
      get_days_back (some l) = PVal.num 30) ∧
    (∀ (l : List (String × PVal)) (v : PVal), l.lookup ("days_back") = some v →
      get_days_back (some l) = v) ∧
    (∀ (env : Env) (cid rid : Nat) (db : DB) (s : String),
      calculate_market_presence env cid rid (PVal.str s) db = .error .typeError) ∧
    (∀ (env : Env) (cid rid : Nat) (db : DB),
      calculate_market_presence env cid rid PVal.nullv db = .error .typeError) := by
  refine ⟨rfl, ?_, ?_, ?_, ?_⟩
  · intro l h
    unfold get_days_back
    dsimp only
    rw [h]
    rfl
  · intro l v h
    unfold get_days_back
    dsimp only
    rw [h]
    rfl
  · intro env cid rid db s
    exact calc_of_bad_days env cid rid (PVal.str s) db .typeError rfl
  · intro env cid rid db
    exact calc_of_bad_days env cid rid PVal.nullv db .typeError rfl

/-- C8 (witness): the amended resolution rules at concrete parameter
bags. -/
theorem c8_witness :
    get_days_back (some [("other", PVal.num 5)]) = PVal.num 30 ∧
    get_days_back (some [("days_back", PVal.num 7)]) = PVal.num 7 ∧
    calculate_market_presence env_c2 2 1 (PVal.str "x") db0 = .error .typeError := by
  refine ⟨?_, ?_, ?_⟩
  · exact c8_days_back_resolution.2.1 [("other", PVal.num 5)] rfl
  · exact c8_days_back_resolution.2.2.1 [("days_back", PVal.num 7)] (PVal.num 7) rfl
  · exact c8_days_back_resolution.2.2.2.1 env_c2 2 1 db0 "x"

/-- C9 (counterexample): a mention whose `published_date` equals
`period_end` (day 1000, the clock value) is counted: the scenario stores a
row with `mention_count = 1` over `[993, 1000]`, whereas the claim's
half-open interval `[period_start, period_end)` would exclude it and
store no row at all. -/
theorem c9_counterexample :
    m_c9.published_date = some (1000 : ℤ) ∧
    c9_db.presences.map (fun p => (p.mention_count, p.period_start, p.period_end)) =
      [(1, 993, 1000)] := by
  exact ⟨rfl, by decide⟩

/-- C9 (amended): the presence computation aggregates exactly the
mentions of the (competitor, run) whose `published_date` lies in the
closed interval `[period_start, period_end]`: a date strictly before
`period_start` or strictly after `period_end` is excluded, a date equal
to `period_end` is included, and a null date is excluded; the stored
`mention_count` is the size of that filtered subset. -/
theorem c9_window_closed_interval :
    (∀ (s e : Time) (cid rid : Nat) (m : Mention),
      in_window s e cid rid m = true ↔
        (m.competitor_id = cid ∧ m.analysis_run_id = rid ∧
         ∃ d, m.published_date = some d ∧ s ≤ d ∧ d ≤ e)) ∧
    (∀ (env : Env) (cid rid : Nat) (days : PVal) (db db' : DB) (d : ℤ),
      timedelta_days days = .ok d →
      calculate_market_presence env cid rid days db = .ok db' →
      ∀ p ∈ db'.presences, p ∉ db.presences →
        p.mention_count =
          (db.mentions.filter (in_window (env.now - d) env.now cid rid)).length) := by
  constructor
  · intro s e cid rid m
    unfold in_window
    cases hpd : m.published_date with
    | none => simp [hpd]
    | some d => simp [hpd, and_assoc]
  · intro env cid rid days db db' d hd hcalc p hp hnew
    unfold calculate_market_presence at hcalc
    rw [hd] at hcalc
    simp only at hcalc
    split at hcalc
    · cases hcalc; exact absurd hp hnew
    · cases hcalc
      simp only [List.mem_append, List.mem_singleton] at hp
      rcases hp with hin | rfl
      · exact absurd hin hnew
      · rfl

/-- C9 (witness): the boundary mention `m_c9` (published exactly at
`period_end = 1000`) satisfies the closed-interval filter, and the row
stored for `db_c9` counts exactly the filtered subset. -/
theorem c9_witness :
    in_window 993 1000 1 1 m_c9 = true ∧
    c9_row.mention_count =
      (db_c9.mentions.filter (in_window (env_c2.now - 7) env_c2.now 1 1)).length := by
  constructor
  · exact (c9_window_closed_interval.1 993 1000 1 1 m_c9).mpr
      ⟨rfl, rfl, 1000, rfl, by decide, by decide⟩
  · have hp : c9_row ∈ c9_db.presences := by
      rw [show c9_db.presences = [c9_row] from rfl]
      exact List.mem_singleton.mpr rfl
    have hnew : c9_row ∉ db_c9.presences := by
      rw [show db_c9.presences = ([] : List Presence) from rfl]
      exact List.not_mem_nil _
    exact c9_window_closed_interval.2 env_c2 1 1 (.num 7) db_c9 c9_db 7 rfl rfl
      c9_row hp hnew

/-- C10: for a competitor whose stored website URL is non-empty, the
web-extraction step succeeds and appends exactly four ContentPage rows,
one per page type homepage, pricing, about, features; and for any page
whose fetch failed (the adapter's error record: empty `content`, no
`raw`), the stored payload is `{"text": "", "url": url}` — a row with
empty text rather than no row. -/
theorem c10_four_content_pages (env : Env) (cid rid : Nat) (db : DB)
    (c : Competitor) (u : String)
    (hc : db.competitors.find? (fun x => x.id == cid) = some c)
    (hu : c.website_url = some u) (hne : u ≠ "") :
    (concrete_steps env).extract cid rid db =
      Except.ok (extract_website_content env cid rid u db) ∧
    (extract_website_content env cid rid u db).webpages =
      db.webpages ++ PAGE_TYPES.map (web_page_row env cid rid u) ∧
    (PAGE_TYPES.map (web_page_row env cid rid u)).map (fun w => w.page_type) =
      PAGE_TYPES ∧
    (PAGE_TYPES.map (web_page_row env cid rid u)).length = 4 ∧
    (∀ pt : String,
      (env.getWebContent (page_url u pt)).content = some (.str "") →
      (env.getWebContent (page_url u pt)).raw = none →
      (web_page_row env cid rid u pt).content =
        Json.obj [("text", .str ""), ("url", .str (page_url u pt))]) := by
  refine ⟨?_, rfl, rfl, rfl, ?_⟩
  · show (match db.competitors.find? (fun x => x.id == cid) with
          | none => Except.ok db
          | some c =>
            match c.website_url with
            | none => Except.ok db
            | some u =>
              if u == "" then Except.ok db
              else Except.ok (extract_website_content env cid rid u db)) = _
    rw [hc]
    dsimp only
    rw [hu]
    dsimp only
    simp [hne]
  · intro pt h1 h2
    unfold web_page_row
    dsimp only
    rw [h1, h2]
    simp [py_truthy]

/-- C10 (witness): the theorem at the concrete competitor with website
`https://a.io/` under the always-failing fetcher `failWeb`, including the
empty-text payload of the pricing page. -/
theorem c10_witness :
    (concrete_steps env_c2).extract 1 1 db_c10 =
      Except.ok (extract_website_content env_c2 1 1 "https://a.io/" db_c10) ∧
    (web_page_row env_c2 1 1 "https://a.io/" "pricing").content =
      Json.obj [("text", .str ""), ("url", .str (page_url "https://a.io/" "pricing"))] := by
  refine ⟨?_, ?_⟩
  · exact (c10_four_content_pages env_c2 1 1 db_c10 comp_c10 "https://a.io/" rfl rfl
      (by decide)).1
  · exact (c10_four_content_pages env_c2 1 1 db_c10 comp_c10 "https://a.io/" rfl rfl
      (by decide)).2.2.2.2 "pricing" rfl rfl
